import Mathlib

/-!
Shallow embedding of `confluence_mcp.py`, a Confluence Cloud MCP server.

The JSON values exchanged with the remote service are modelled by the
inductive type `Json` (Python ints only; the payloads of this program carry
no floats).  Python dictionary access `d.get(k, default)`, Python
truthiness, Python `str()` interpolation into f-strings, and
`json.dumps(x, indent=2)` are modelled by `Json.getD`, `pyTruthy`, `pyStr`
and `dumps` below.  Network interaction is modelled by the effect tree
`Net`: each `Net.call` node is exactly one HTTP request issued by the
program, and `Net.run` evaluates a handler against an oracle describing
the remote service, returning the result together with the list of
requests issued (so "exactly one network call" is a statement about the
returned trace).
-/

/-- A JSON value as handled by the Python program (numbers restricted
to integers, which is all the program's payloads use). -/
inductive Json where
  | null : Json
  | bool (b : Bool) : Json
  | num (n : Int) : Json
  | str (s : String) : Json
  | arr (xs : List Json) : Json
  | obj (kvs : List (String × Json)) : Json

/-- Python truthiness of a JSON value: `None`, `False`, `0`, `""`, `[]`
and `\x7b\x7d` are falsy, everything else truthy. -/
def pyTruthy : Json → Bool
  | .null => false
  | .bool b => b
  | .num n => n != 0
  | .str s => !s.isEmpty
  | .arr xs => !xs.isEmpty
  | .obj kvs => !kvs.isEmpty

/-- Association-list lookup of a key, first match, as Python dict lookup. -/
def lookupKey (k : String) : List (String × Json) → Option Json
  | [] => none
  | (k', v) :: rest => if k' = k then some v else lookupKey k rest

/-- `d.get(k, default)` on a Python dict.  (On a non-dict the Python
program would raise; all uses below are on dict-shaped values, enforced by
hypotheses where a theorem quantifies over payloads.) -/
def Json.getD (j : Json) (k : String) (d : Json) : Json :=
  match j with
  | .obj kvs => (lookupKey k kvs).getD d
  | _ => d

/-- Whether a JSON value is a dict. -/
def Json.isObj : Json → Bool
  | .obj _ => true
  | _ => false

/-- Lowercase hex digit. -/
def hexDigit (n : Nat) : Char :=
  if n < 10 then Char.ofNat (48 + n) else Char.ofNat (87 + n)

/-- Four lowercase hex digits, as in Python json's `\uXXXX` escapes. -/
def hex4 (n : Nat) : String :=
  String.mk [hexDigit (n / 4096 % 16), hexDigit (n / 256 % 16),
             hexDigit (n / 16 % 16), hexDigit (n % 16)]

/-- Escape one character the way Python `json.dumps` (with the default
`ensure_ascii=True`) escapes string content: `"` and backslash get a
backslash, the common control characters use their short escapes, and
anything outside printable ASCII becomes `\uXXXX`. -/
def jsonEscapeChar (c : Char) : String :=
  if c = '"' then "\\\""
  else if c = '\\' then "\\\\"
  else if c = '\n' then "\\n"
  else if c = '\t' then "\\t"
  else if c = '\r' then "\\r"
  else if c = '\x08' then "\\b"
  else if c = '\x0c' then "\\f"
  else if c.toNat < 32 || c.toNat > 126 then "\\u" ++ hex4 c.toNat
  else String.singleton c

/-- A JSON string literal as Python `json.dumps` renders it. -/
def jsonQuote (s : String) : String :=
  "\"" ++ String.join (s.data.map jsonEscapeChar) ++ "\""

/-- `n` spaces. -/
def indentStr (n : Nat) : String :=
  String.mk (List.replicate n ' ')

/-- Interleave a separator between rendered items. -/
def joinSep (sep : String) : List String → String
  | [] => ""
  | [x] => x
  | x :: rest => x ++ sep ++ joinSep sep rest

mutual

/-- `json.dumps(j, indent=2)` rendered with the current indentation
level `ind` (Python's separators for indented output are `,` and `: `;
empty containers render with no inner newline). -/
def dumpsAt (ind : Nat) : Json → String
  | .null => "null"
  | .bool true => "true"
  | .bool false => "false"
  | .num n => toString n
  | .str s => jsonQuote s
  | .arr [] => "[]"
  | .arr (x :: xs) =>
      "[\n" ++ joinSep ",\n" (dumpsArr (ind + 2) (x :: xs)) ++ "\n" ++
        indentStr ind ++ "]"
  | .obj [] => "\x7b\x7d"
  | .obj (kv :: kvs) =>
      "\x7b\n" ++ joinSep ",\n" (dumpsObj (ind + 2) (kv :: kvs)) ++ "\n" ++
        indentStr ind ++ "\x7d"

/-- Render the elements of an array, each on its own indented line. -/
def dumpsArr (ind : Nat) : List Json → List String
  | [] => []
  | x :: xs => (indentStr ind ++ dumpsAt ind x) :: dumpsArr ind xs

/-- Render the entries of an object, each on its own indented line. -/
def dumpsObj (ind : Nat) : List (String × Json) → List String
  | [] => []
  | (k, v) :: kvs =>
      (indentStr ind ++ jsonQuote k ++ ": " ++ dumpsAt ind v) :: dumpsObj ind kvs

end

/-- `json.dumps(j, indent=2)` as used throughout the program for the
`response_format=json` output path. -/
def dumps (j : Json) : String := dumpsAt 0 j

/-- Python `repr` of a string (as interpolated for list/dict members):
single-quoted, escaping backslash and the single quote.  Only reached when
a non-scalar JSON value is interpolated into an f-string, which the
program's payloads never do. -/
def pyReprStr (s : String) : String :=
  "\x27" ++ String.join (s.data.map (fun c =>
    if c = '\\' then "\\\\"
    else if c = Char.ofNat 39 then "\\\x27"
    else String.singleton c)) ++ "\x27"

mutual

/-- Python `str()` of a parsed-JSON value, as an f-string interpolates it:
strings verbatim, ints in decimal, `True`/`False`/`None`, and the Python
`repr` for lists and dicts. -/
def pyStr : Json → String
  | .null => "None"
  | .bool true => "True"
  | .bool false => "False"
  | .num n => toString n
  | .str s => s
  | .arr xs => "[" ++ joinSep ", " (pyStrArr xs) ++ "]"
  | .obj kvs => "\x7b" ++ joinSep ", " (pyStrObj kvs) ++ "\x7d"

/-- `repr` of each list element. -/
def pyStrArr : List Json → List String
  | [] => []
  | .str s :: xs => pyReprStr s :: pyStrArr xs
  | x :: xs => pyStr x :: pyStrArr xs

/-- `repr` of each dict entry. -/
def pyStrObj : List (String × Json) → List String
  | [] => []
  | (k, .str s) :: kvs => (pyReprStr k ++ ": " ++ pyReprStr s) :: pyStrObj kvs
  | (k, v) :: kvs => (pyReprStr k ++ ": " ++ pyStr v) :: pyStrObj kvs

end

/-! ## Configuration constants (module top of `confluence_mcp.py`) -/

def CONFLUENCE_BASE_URL : String := "https://aofoundation.atlassian.net"

def CONFLUENCE_API_V2 : String := CONFLUENCE_BASE_URL ++ "/wiki/api/v2"

def CONFLUENCE_API_V1 : String := CONFLUENCE_BASE_URL ++ "/wiki/rest/api"

/-! ## HTTP layer: `make_request` -/

/-- One HTTP request as issued through `httpx` by `make_request`: method,
URL, query parameters (in dict insertion order) and optional JSON body. -/
structure Request where
  method : String
  url : String
  queryParams : List (String × Json)
  jsonData : Option Json

/-- One HTTP response as seen by `make_request`: status code, raw body
text, and the value `response.json()` would parse (none when the body is
not valid JSON, in which case `response.json()` raises). -/
structure HttpResponse where
  status : Nat
  text : String
  jsonBody : Option Json

/-- A raised Python exception: its class name and message. -/
structure PyErr where
  cls : String
  msg : String
deriving DecidableEq

/-- The response dispatch of `make_request` (confluence_mcp.py lines
81-91): 401, 403 and 404 each raise a `ValueError` with a fixed message,
any other status >= 400 raises a `ValueError` carrying the status code and
the first 500 characters of the body (or "No details" when the body is
empty), and otherwise the parsed JSON body is returned, or an empty dict
when the body is empty. -/
def make_request_handle (r : HttpResponse) : Except PyErr Json :=
  if r.status = 401 then
    .error ⟨"ValueError",
      "Authentication failed. Check your CONFLUENCE_EMAIL and CONFLUENCE_API_TOKEN."⟩
  else if r.status = 403 then
    .error ⟨"ValueError",
      "Permission denied. Your account may not have access to this resource."⟩
  else if r.status = 404 then
    .error ⟨"ValueError", "Resource not found. Check the ID or key provided."⟩
  else if r.status ≥ 400 then
    .error ⟨"ValueError", "API error " ++ toString r.status ++ ": " ++
      (if r.text.isEmpty then "No details" else r.text.take 500)⟩
  else if r.text.isEmpty then
    .ok (.obj [])
  else
    match r.jsonBody with
    | some j => .ok j
    | none => .error ⟨"JSONDecodeError", "Expecting value"⟩

/-! ## Network effect tree

Each `call` node is one HTTP request; running against an oracle yields the
handler's result and the exact list of requests issued. -/

/-- A computation that may issue HTTP requests. -/
inductive Net (α : Type) where
  | pure (a : α)
  | call (req : Request) (k : HttpResponse → Net α)

/-- Evaluate against an oracle for the remote service, collecting the
trace of issued requests in order. -/
def Net.run {α : Type} (oracle : Request → HttpResponse) : Net α → α × List Request
  | .pure a => (a, [])
  | .call req k =>
    let rest := Net.run oracle (k (oracle req))
    (rest.1, req :: rest.2)

/-- `await make_request(...)`: one request, dispatched through
`make_request_handle`. -/
def makeRequest (method url : String) (ps : List (String × Json))
    (body : Option Json) : Net (Except PyErr Json) :=
  .call ⟨method, url, ps, body⟩ (fun r => .pure (make_request_handle r))

/-- Sequencing that propagates a raised exception, as Python handlers do
(no handler catches errors from `make_request`). -/
def onOk {β : Type} (m : Net (Except PyErr Json))
    (f : Json → Net (Except PyErr β)) : Net (Except PyErr β) :=
  match m with
  | .pure (.error e) => .pure (.error e)
  | .pure (.ok j) => f j
  | .call req k => .call req (fun r => onOk (k r) f)

/-! ## Response formatting -/

/-- Output format for tool responses. -/
inductive ResponseFormat where
  | markdown
  | json
deriving DecidableEq

/-- The markdown body of `format_space`. -/
def formatSpaceMd (space : Json) : String :=
  "## " ++ pyStr (space.getD "name" (.str "Unknown")) ++ "\n" ++
  "- **Key**: " ++ pyStr (space.getD "key" (.str "N/A")) ++ "\n" ++
  "- **ID**: " ++ pyStr (space.getD "id" (.str "N/A")) ++ "\n" ++
  "- **Type**: " ++ pyStr (space.getD "type" (.str "N/A")) ++ "\n" ++
  "- **Status**: " ++ pyStr (space.getD "status" (.str "N/A")) ++ "\n" ++
  "- **URL**: " ++ CONFLUENCE_BASE_URL ++ "/wiki/spaces/" ++
    pyStr (space.getD "key" (.str ""))

/-- `format_space` (lines 104-114): raw indented JSON dump in json mode,
a fixed heading/bullet template in markdown mode. -/
def format_space (space : Json) (fmt : ResponseFormat) : String :=
  match fmt with
  | .json => dumps space
  | .markdown => formatSpaceMd space

/-- The markdown header part of `format_page` (before any content
section). -/
def formatPageHeaderMd (page : Json) : String :=
  "## " ++ pyStr (page.getD "title" (.str "Untitled")) ++ "\n" ++
  "- **ID**: " ++ pyStr (page.getD "id" (.str "N/A")) ++ "\n" ++
  "- **Space ID**: " ++ pyStr (page.getD "spaceId" (.str "N/A")) ++ "\n" ++
  "- **Status**: " ++ pyStr (page.getD "status" (.str "N/A")) ++ "\n" ++
  "- **URL**: " ++ CONFLUENCE_BASE_URL ++ "/wiki/pages/" ++
    pyStr (page.getD "id" (.str "N/A"))

/-- The sliced storage value `storage.get('value', '')[:2000]` as
interpolated into the content section.  (A truthy non-string value would
raise a `TypeError` in Python; theorems about page formatting therefore
restrict the value to strings.) -/
def sliceValue : Json → String
  | .str s => s.take 2000
  | v => pyStr v

/-- `format_page` (lines 117-138): raw indented JSON dump in json mode;
in markdown mode a heading/bullet template, plus a content section
(truncated to 2000 characters) when the body carries a truthy `storage`
entry with a truthy `value`. -/
def format_page (page : Json) (fmt : ResponseFormat) : String :=
  match fmt with
  | .json => dumps page
  | .markdown =>
    let body := page.getD "body" (.obj [])
    let result := formatPageHeaderMd page
    if pyTruthy body then
      let storage := body.getD "storage" (.obj [])
      if pyTruthy storage && pyTruthy (storage.getD "value" .null) then
        result ++ "\n\n### Content\n" ++ sliceValue (storage.getD "value" (.str ""))
      else result
    else result

/-- The `body` local of `format_page` (line 132). -/
def pageBody (page : Json) : Json := page.getD "body" (.obj [])

/-- The `storage` local of `format_page` (line 134). -/
def pageStorage (page : Json) : Json := (pageBody page).getD "storage" (.obj [])

/-! ## Input models

Only the fields the handlers read are carried; defaults are those of the
pydantic models.  Pydantic's `str_strip_whitespace=True` (all input
models) is modelled by `String.trim` applied to raw string fields before a
handler runs. -/

/-- Pydantic's `str_strip_whitespace=True` (set on every input model):
surrounding whitespace is removed from raw string fields before the
handler sees them. -/
def pyStrip (s : String) : String :=
  String.mk (((s.data.dropWhile Char.isWhitespace).reverse.dropWhile
    Char.isWhitespace).reverse)

/-- Python truthiness of an `Optional[str]` field: `None` and `""` are
falsy. -/
def truthyOptStr : Option String → Bool
  | none => false
  | some s => !s.isEmpty

/-- Input for listing spaces. -/
structure ListSpacesInput where
  limit : Int := 25
  cursor : Option String := none
  type : Option String := none
  response_format : ResponseFormat := .markdown

/-- Input for getting a space by its key. -/
structure GetSpaceByKeyInput where
  space_key : String
  response_format : ResponseFormat := .markdown

/-- Input for listing pages. -/
structure ListPagesInput where
  space_id : Option String := none
  limit : Int := 25
  cursor : Option String := none
  title : Option String := none
  status : Option String := some "current"
  response_format : ResponseFormat := .markdown

/-- Input for getting a specific page. -/
structure GetPageInput where
  page_id : String
  include_body : Bool := true
  body_format : String := "storage"
  response_format : ResponseFormat := .markdown

/-- Input for getting pages in a specific space. -/
structure GetPagesInSpaceInput where
  space_id : String
  limit : Int := 25
  cursor : Option String := none
  depth : Option String := some "all"
  response_format : ResponseFormat := .markdown

/-- Input for searching Confluence content. -/
structure SearchContentInput where
  query : String
  limit : Int := 25
  response_format : ResponseFormat := .markdown

/-- Input for creating a new page. -/
structure CreatePageInput where
  space_id : String
  title : String
  body : String := ""
  parent_id : Option String := none
  response_format : ResponseFormat := .markdown

/-- Input for updating a page. -/
structure UpdatePageInput where
  page_id : String
  title : Option String := none
  body : Option String := none
  version_number : Int
  response_format : ResponseFormat := .markdown

/-! ## Tool handlers -/

/-- Query parameters built by `confluence_list_spaces` (lines 393-398):
`limit` always, then `cursor` and `type` when truthy, in dict insertion
order. -/
def listSpacesQueryParams (p : ListSpacesInput) : List (String × Json) :=
  [("limit", Json.num p.limit)]
    ++ (if truthyOptStr p.cursor then [("cursor", Json.str (p.cursor.getD ""))] else [])
    ++ (if truthyOptStr p.type then [("type", Json.str (p.type.getD ""))] else [])

/-- The non-notice part of the markdown output of `confluence_list_spaces`
(lines 410-412): count header followed by each space's markdown block. -/
def listSpacesMdBase (p : ListSpacesInput) (spaces : List Json) : String :=
  "# Confluence Spaces (" ++ toString spaces.length ++ " results)\n\n" ++
    String.join (spaces.map (fun s =>
      format_space s p.response_format ++ "\n\n---\n\n"))

/-- The pagination notice of `confluence_list_spaces` (line 417). -/
def listSpacesNotice : String :=
  "\n**More results available.** Use cursor to get next page."

/-- `confluence_list_spaces` (lines 377-419). -/
def confluence_list_spaces (p : ListSpacesInput) : Net (Except PyErr String) :=
  onOk (makeRequest "GET" (CONFLUENCE_API_V2 ++ "/spaces") (listSpacesQueryParams p) none)
    (fun data => .pure (
      let spaces := data.getD "results" (.arr [])
      if p.response_format = .json then .ok (dumps data)
      else if pyTruthy spaces = false then .ok "No spaces found."
      else match spaces with
      | .arr xs =>
        let base := listSpacesMdBase p xs
        let links := data.getD "_links" (.obj [])
        if pyTruthy (links.getD "next" .null) then .ok (base ++ listSpacesNotice)
        else .ok base
      -- a truthy non-list `results` would raise in the Python `for` loop
      | _ => .error ⟨"TypeError", "results is not a list"⟩))

/-- `confluence_get_space_by_key` (lines 457-478): one filtered list query
with `keys=<space_key>&limit=1`; an empty result list yields a plain
not-found message, otherwise the first hit is formatted. -/
def confluence_get_space_by_key (p : GetSpaceByKeyInput) : Net (Except PyErr String) :=
  onOk (makeRequest "GET" (CONFLUENCE_API_V2 ++ "/spaces")
      [("keys", Json.str p.space_key), ("limit", Json.num 1)] none)
    (fun data => .pure (
      let spaces := data.getD "results" (.arr [])
      if pyTruthy spaces = false then
        .ok ("Space with key \x27" ++ p.space_key ++ "\x27 not found.")
      else match spaces with
      | .arr (s :: _) => .ok (format_space s p.response_format)
      -- a truthy non-list `results` would raise at the Python `spaces[0]`
      | _ => .error ⟨"TypeError", "results is not a list"⟩))

/-- Query parameters built by `confluence_list_pages` (lines 510-517). -/
def listPagesQueryParams (p : ListPagesInput) : List (String × Json) :=
  [("limit", Json.num p.limit)]
    ++ (if truthyOptStr p.cursor then [("cursor", Json.str (p.cursor.getD ""))] else [])
    ++ (if truthyOptStr p.title then [("title", Json.str (p.title.getD ""))] else [])
    ++ (if truthyOptStr p.status then [("status", Json.str (p.status.getD ""))] else [])

/-- URL chosen by `confluence_list_pages` (lines 520-523): the
space-scoped collection when a space id was supplied, else the global
pages collection. -/
def listPagesUrl (p : ListPagesInput) : String :=
  if truthyOptStr p.space_id then
    CONFLUENCE_API_V2 ++ "/spaces/" ++ p.space_id.getD "" ++ "/pages"
  else
    CONFLUENCE_API_V2 ++ "/pages"

/-- One page entry of the `confluence_list_pages` markdown output
(lines 537-541). -/
def listPagesEntry (page : Json) : String :=
  "### " ++ pyStr (page.getD "title" (.str "Untitled")) ++ "\n" ++
  "- **ID**: " ++ pyStr (page.getD "id" (.str "N/A")) ++ "\n" ++
  "- **Space ID**: " ++ pyStr (page.getD "spaceId" (.str "N/A")) ++ "\n" ++
  "- **Status**: " ++ pyStr (page.getD "status" (.str "N/A")) ++ "\n" ++
  "- **URL**: " ++ CONFLUENCE_BASE_URL ++ "/wiki/pages/" ++
    pyStr (page.getD "id" (.str "")) ++ "\n\n"

/-- The non-notice part of the markdown output of `confluence_list_pages`
(lines 535-541). -/
def listPagesMdBase (pages : List Json) : String :=
  "# Confluence Pages (" ++ toString pages.length ++ " results)\n\n" ++
    String.join (pages.map listPagesEntry)

/-- The pagination notice of `confluence_list_pages` (line 546). -/
def listPagesNotice : String :=
  "\n**More results available.** Use cursor for next page."

/-- `confluence_list_pages` (lines 495-548). -/
def confluence_list_pages (p : ListPagesInput) : Net (Except PyErr String) :=
  onOk (makeRequest "GET" (listPagesUrl p) (listPagesQueryParams p) none)
    (fun data => .pure (
      let pages := data.getD "results" (.arr [])
      if p.response_format = .json then .ok (dumps data)
      else if pyTruthy pages = false then .ok "No pages found."
      else match pages with
      | .arr xs =>
        let base := listPagesMdBase xs
        let links := data.getD "_links" (.obj [])
        if pyTruthy (links.getD "next" .null) then .ok (base ++ listPagesNotice)
        else .ok base
      -- a truthy non-list `results` would raise in the Python `for` loop
      | _ => .error ⟨"TypeError", "results is not a list"⟩))

/-- Query parameters of `confluence_get_page` (lines 574-576): only a
`body-format` entry, and only when the caller opts into the body. -/
def getPageQueryParams (p : GetPageInput) : List (String × Json) :=
  if p.include_body then [("body-format", Json.str p.body_format)] else []

/-- `confluence_get_page` (lines 561-584). -/
def confluence_get_page (p : GetPageInput) : Net (Except PyErr String) :=
  onOk (makeRequest "GET" (CONFLUENCE_API_V2 ++ "/pages/" ++ p.page_id)
      (getPageQueryParams p) none)
    (fun data => .pure (.ok (format_page data p.response_format)))

/-- Query parameters of `confluence_get_pages_in_space` (lines 611-616). -/
def getPagesInSpaceQueryParams (p : GetPagesInSpaceInput) : List (String × Json) :=
  [("limit", Json.num p.limit)]
    ++ (if truthyOptStr p.cursor then [("cursor", Json.str (p.cursor.getD ""))] else [])
    ++ (if truthyOptStr p.depth then [("depth", Json.str (p.depth.getD ""))] else [])

/-- One page entry of the `confluence_get_pages_in_space` markdown output
(lines 633-636); unlike `confluence_list_pages` there is no Space ID
line. -/
def pagesInSpaceEntry (page : Json) : String :=
  "### " ++ pyStr (page.getD "title" (.str "Untitled")) ++ "\n" ++
  "- **ID**: " ++ pyStr (page.getD "id" (.str "N/A")) ++ "\n" ++
  "- **Status**: " ++ pyStr (page.getD "status" (.str "N/A")) ++ "\n" ++
  "- **URL**: " ++ CONFLUENCE_BASE_URL ++ "/wiki/pages/" ++
    pyStr (page.getD "id" (.str "")) ++ "\n\n"

/-- The whole markdown output of `confluence_get_pages_in_space` for a
non-empty result list (lines 631-638): count header plus entries, with no
pagination notice. -/
def pagesInSpaceMd (pages : List Json) : String :=
  "# Pages in Space (" ++ toString pages.length ++ " results)\n\n" ++
    String.join (pages.map pagesInSpaceEntry)

/-- `confluence_get_pages_in_space` (lines 597-638).  Note the json-format
check precedes the results extraction, and `_links` is never consulted. -/
def confluence_get_pages_in_space (p : GetPagesInSpaceInput) : Net (Except PyErr String) :=
  onOk (makeRequest "GET" (CONFLUENCE_API_V2 ++ "/spaces/" ++ p.space_id ++ "/pages")
      (getPagesInSpaceQueryParams p) none)
    (fun data => .pure (
      if p.response_format = .json then .ok (dumps data)
      else
        let pages := data.getD "results" (.arr [])
        if pyTruthy pages = false then
          .ok ("No pages found in space " ++ p.space_id ++ ".")
        else match pages with
        | .arr xs => .ok (pagesInSpaceMd xs)
        -- a truthy non-list `results` would raise in the Python `for` loop
        | _ => .error ⟨"TypeError", "results is not a list"⟩))

/-- One result entry of the `confluence_search` markdown output
(lines 691-702). -/
def searchResultEntry (item : Json) : String :=
  let space := item.getD "space" (.obj [])
  let spaceKey := if pyTruthy space then space.getD "key" (.str "N/A") else .str "N/A"
  "### " ++ pyStr (item.getD "title" (.str "Untitled")) ++ "\n" ++
  "- **Type**: " ++ pyStr (item.getD "type" (.str "unknown")) ++ "\n" ++
  "- **ID**: " ++ pyStr (item.getD "id" (.str "")) ++ "\n" ++
  "- **Space**: " ++ pyStr spaceKey ++ "\n" ++
  "- **URL**: " ++ CONFLUENCE_BASE_URL ++ "/wiki/pages/" ++
    pyStr (item.getD "id" (.str "")) ++ "\n\n"

/-- The whole markdown output of `confluence_search` for a non-empty
result list (lines 688-704): count header, echoed query, entries; no
pagination notice. -/
def searchMd (query : String) (results : List Json) : String :=
  "# Search Results (" ++ toString results.length ++ " found)\n\n" ++
  "**Query**: `" ++ query ++ "`\n\n" ++
    String.join (results.map searchResultEntry)

/-- `confluence_search` (lines 651-704): one GET on the legacy v1 CQL
endpoint, query passed through verbatim. -/
def confluence_search (p : SearchContentInput) : Net (Except PyErr String) :=
  onOk (makeRequest "GET" (CONFLUENCE_API_V1 ++ "/content/search")
      [("cql", Json.str p.query), ("limit", Json.num p.limit)] none)
    (fun data => .pure (
      if p.response_format = .json then .ok (dumps data)
      else
        let results := data.getD "results" (.arr [])
        if pyTruthy results = false then
          .ok ("No results found for query: " ++ p.query)
        else match results with
        | .arr xs => .ok (searchMd p.query xs)
        -- a truthy non-list `results` would raise in the Python `for` loop
        | _ => .error ⟨"TypeError", "results is not a list"⟩))

/-- The POST payload built by `confluence_create_page` (lines 734-745):
spaceId, status, title and a storage-format body wrapper always; a
`parentId` entry appended only when the `parent_id` field is truthy. -/
def createPagePayload (p : CreatePageInput) : Json :=
  .obj ([("spaceId", .str p.space_id),
         ("status", .str "current"),
         ("title", .str p.title),
         ("body", .obj [("representation", .str "storage"),
                        ("value", .str p.body)])]
    ++ (if truthyOptStr p.parent_id
        then [("parentId", Json.str (p.parent_id.getD ""))] else []))

/-- The markdown confirmation of `confluence_create_page`
(lines 752-758). -/
def createPageMd (data : Json) : String :=
  "# Page Created Successfully\n\n" ++
  "- **Title**: " ++ pyStr (data.getD "title" (.str "N/A")) ++ "\n" ++
  "- **ID**: " ++ pyStr (data.getD "id" (.str "N/A")) ++ "\n" ++
  "- **Space ID**: " ++ pyStr (data.getD "spaceId" (.str "N/A")) ++ "\n" ++
  "- **Status**: " ++ pyStr (data.getD "status" (.str "N/A")) ++ "\n" ++
  "- **URL**: " ++ CONFLUENCE_BASE_URL ++ "/wiki/pages/" ++
    pyStr (data.getD "id" (.str ""))

/-- `confluence_create_page` (lines 717-758). -/
def confluence_create_page (p : CreatePageInput) : Net (Except PyErr String) :=
  onOk (makeRequest "POST" (CONFLUENCE_API_V2 ++ "/pages") []
      (some (createPagePayload p)))
    (fun data => .pure (
      if p.response_format = .json then .ok (dumps data)
      else .ok (createPageMd data)))

/-- The PUT payload built by `confluence_update_page` (lines 791-806)
from its input and the page state `current` read by the preceding GET:
title falls back to `current.get("title")` when the supplied title is
falsy (absent or empty), spaceId is restated from `current`, the version
number is the caller's number plus one, and a body wrapper is appended
only when a body was supplied (`is not None`, so an empty string counts
as supplied). -/
def updatePagePayload (p : UpdatePageInput) (current : Json) : Json :=
  .obj ([("id", .str p.page_id),
         ("status", .str "current"),
         ("title", match p.title with
                   | some t => if t.isEmpty then current.getD "title" .null else .str t
                   | none => current.getD "title" .null),
         ("spaceId", current.getD "spaceId" .null),
         ("version", .obj [("number", .num (p.version_number + 1)),
                           ("message", .str "Updated via MCP")])]
    ++ (match p.body with
        | some b => [("body", .obj [("representation", .str "storage"),
                                    ("value", .str b)])]
        | none => []))

/-- The markdown confirmation of `confluence_update_page`
(lines 813-818). -/
def updatePageMd (data : Json) : String :=
  "# Page Updated Successfully\n\n" ++
  "- **Title**: " ++ pyStr (data.getD "title" (.str "N/A")) ++ "\n" ++
  "- **ID**: " ++ pyStr (data.getD "id" (.str "N/A")) ++ "\n" ++
  "- **Version**: " ++
    pyStr ((data.getD "version" (.obj [])).getD "number" (.str "N/A")) ++ "\n" ++
  "- **URL**: " ++ CONFLUENCE_BASE_URL ++ "/wiki/pages/" ++
    pyStr (data.getD "id" (.str ""))

/-- `confluence_update_page` (lines 771-818): a GET of the current page
state followed by a PUT of the rebuilt payload. -/
def confluence_update_page (p : UpdatePageInput) : Net (Except PyErr String) :=
  onOk (makeRequest "GET" (CONFLUENCE_API_V2 ++ "/pages/" ++ p.page_id) [] none)
    (fun current =>
      onOk (makeRequest "PUT" (CONFLUENCE_API_V2 ++ "/pages/" ++ p.page_id) []
          (some (updatePagePayload p current)))
        (fun data => .pure (
          if p.response_format = .json then .ok (dumps data)
          else .ok (updatePageMd data))))

/-! ## Helper lemmas -/

/-- A non-empty string is not `isEmpty`. -/
theorem isEmpty_false_of_ne {s : String} (h : s ≠ "") : s.isEmpty = false := by
  rw [Bool.eq_false_iff]
  intro hs
  exact h ((String.isEmpty_iff s).mp hs)

/-- `s.take n` has at most `n` characters. -/
theorem take_length_le (s : String) (n : Nat) : (s.take n).length ≤ n := by
  rw [String.take_eq]
  exact List.length_take_le n s.1

/-- `isObj` means the value is an `obj`. -/
theorem exists_obj_of_isObj {j : Json} (h : j.isObj = true) :
    ∃ kvs, j = .obj kvs := by
  cases j <;> first
  | exact ⟨_, rfl⟩
  | simp [Json.isObj] at h

/-! ## Claims -/

/-- Claim C1: for every `update_page` invocation with caller-supplied
version number `N >= 1`, the outgoing PUT payload's `version.number`
field is exactly `N + 1`, independent of the page state `current` that
the preceding GET reports (the theorem quantifies over any `current`
returned by the GET): the request trace is exactly the GET followed by
the PUT of `updatePagePayload p current`, whose version number is
`p.version_number + 1`. -/
theorem c1_update_page_version_increment (p : UpdatePageInput)
    (oracle : Request → HttpResponse) (current : Json)
    (h1 : 1 ≤ p.version_number)
    (hget : make_request_handle
        (oracle ⟨"GET", CONFLUENCE_API_V2 ++ "/pages/" ++ p.page_id, [], none⟩)
      = .ok current) :
    (Net.run oracle (confluence_update_page p)).2
      = [⟨"GET", CONFLUENCE_API_V2 ++ "/pages/" ++ p.page_id, [], none⟩,
         ⟨"PUT", CONFLUENCE_API_V2 ++ "/pages/" ++ p.page_id, [],
           some (updatePagePayload p current)⟩]
    ∧ ((updatePagePayload p current).getD "version" .null).getD "number" .null
        = Json.num (p.version_number + 1) := by
  constructor
  · cases hput : make_request_handle
        (oracle ⟨"PUT", CONFLUENCE_API_V2 ++ "/pages/" ++ p.page_id, [],
          some (updatePagePayload p current)⟩) <;>
      simp [confluence_update_page, makeRequest, onOk, Net.run, hget, hput]
  · rfl

/-- Claim C1 witness: a concrete update with caller version 5 and a
remote page currently at version 9 still submits version number 6. -/
theorem c1_update_page_version_increment_witness :
    (Net.run (fun _ => ⟨200, "j",
        some (Json.obj [("title", Json.str "T"), ("spaceId", Json.str "S"),
          ("version", Json.obj [("number", Json.num 9)])])⟩)
      (confluence_update_page ⟨"123", none, none, 5, .markdown⟩)).2
      = [⟨"GET", CONFLUENCE_API_V2 ++ "/pages/123", [], none⟩,
         ⟨"PUT", CONFLUENCE_API_V2 ++ "/pages/123", [],
           some (updatePagePayload ⟨"123", none, none, 5, .markdown⟩
             (Json.obj [("title", Json.str "T"), ("spaceId", Json.str "S"),
               ("version", Json.obj [("number", Json.num 9)])]))⟩]
    ∧ ((updatePagePayload ⟨"123", none, none, 5, .markdown⟩
        (Json.obj [("title", Json.str "T"), ("spaceId", Json.str "S"),
          ("version", Json.obj [("number", Json.num 9)])])).getD "version"
            .null).getD "number" .null
        = Json.num 6 :=
  c1_update_page_version_increment ⟨"123", none, none, 5, .markdown⟩ _ _
    (by decide) rfl

/-- Claim C6: when no body argument is supplied to `update_page`, the PUT
payload contains no `body` field at all; the payload always restates the
containing space id read by the preceding GET, and, when no new title was
supplied, also the title read by the GET. -/
theorem c6_update_page_frame (p : UpdatePageInput) (current : Json)
    (hbody : p.body = none) :
    (∃ kvs, updatePagePayload p current = .obj kvs
      ∧ lookupKey "body" kvs = none)
    ∧ (updatePagePayload p current).getD "spaceId" .null
        = current.getD "spaceId" .null
    ∧ (p.title = none →
        (updatePagePayload p current).getD "title" .null
          = current.getD "title" .null) := by
  refine ⟨⟨_, rfl, ?_⟩, ?_, fun ht => ?_⟩
  · simp [hbody, lookupKey]
  · simp [updatePagePayload, Json.getD, lookupKey, hbody]
  · simp [updatePagePayload, Json.getD, lookupKey, hbody, ht]

/-- Claim C6 witness: an update supplying only a version keeps the body
absent and restates title and space id from the GET. -/
theorem c6_update_page_frame_witness :
    (∃ kvs, updatePagePayload ⟨"7", none, none, 3, .markdown⟩
        (Json.obj [("title", Json.str "Old"), ("spaceId", Json.str "55")])
        = .obj kvs ∧ lookupKey "body" kvs = none)
    ∧ (updatePagePayload ⟨"7", none, none, 3, .markdown⟩
        (Json.obj [("title", Json.str "Old"), ("spaceId", Json.str "55")])).getD
          "spaceId" .null
        = (Json.obj [("title", Json.str "Old"),
            ("spaceId", Json.str "55")]).getD "spaceId" .null
    ∧ (((⟨"7", none, none, 3, .markdown⟩ : UpdatePageInput).title = none) →
        (updatePagePayload ⟨"7", none, none, 3, .markdown⟩
          (Json.obj [("title", Json.str "Old"), ("spaceId", Json.str "55")])).getD
            "title" .null
          = (Json.obj [("title", Json.str "Old"),
              ("spaceId", Json.str "55")]).getD "title" .null) :=
  c6_update_page_frame ⟨"7", none, none, 3, .markdown⟩ _ rfl

/-- Claim C8: the `create_page` POST payload contains a `parentId` field
exactly when a (non-empty) parent id was supplied; with no parent id the
field is entirely absent from the payload, not present with a null
value. -/
theorem c8_create_page_parent_id (p : CreatePageInput) :
    (p.parent_id = none →
      ∃ kvs, createPagePayload p = .obj kvs
        ∧ lookupKey "parentId" kvs = none)
    ∧ (∀ s, p.parent_id = some s → s ≠ "" →
      ∃ kvs, createPagePayload p = .obj kvs
        ∧ lookupKey "parentId" kvs = some (.str s)) := by
  constructor
  · intro h
    exact ⟨_, rfl, by simp [truthyOptStr, h, lookupKey]⟩
  · intro s hs hne
    exact ⟨_, rfl, by simp [truthyOptStr, hs, isEmpty_false_of_ne hne, lookupKey]⟩

/-- Claim C8 witness: without a parent id the field is absent; with
parent id "42" the payload carries it. -/
theorem c8_create_page_parent_id_witness :
    (∃ kvs, createPagePayload ⟨"1", "T", "", none, .markdown⟩ = .obj kvs
      ∧ lookupKey "parentId" kvs = none)
    ∧ (∃ kvs, createPagePayload ⟨"1", "T", "", some "42", .markdown⟩ = .obj kvs
      ∧ lookupKey "parentId" kvs = some (.str "42")) :=
  ⟨(c8_create_page_parent_id ⟨"1", "T", "", none, .markdown⟩).1 rfl,
   (c8_create_page_parent_id ⟨"1", "T", "", some "42", .markdown⟩).2 "42" rfl
     (by decide)⟩

/-- Claim C10: an `update_page` title that input validation strips to the
empty string is treated exactly as an absent title: the PUT payload
carries the page's current remote title, and the whole payload coincides
with the payload built for `title = none`. -/
theorem c10_update_page_empty_title (p : UpdatePageInput) (raw : String)
    (current : Json) (hraw : pyStrip raw = "") (ht : p.title = some (pyStrip raw)) :
    (updatePagePayload p current).getD "title" .null
        = current.getD "title" .null
    ∧ updatePagePayload p current
        = updatePagePayload { p with title := none } current := by
  rw [hraw] at ht
  have h0 : "".isEmpty = true := rfl
  constructor
  · simp [updatePagePayload, Json.getD, lookupKey, ht, h0]
  · simp [updatePagePayload, ht, h0]

/-- Claim C10 witness: a whitespace-only raw title, stripped by
validation, leaves the remote title "Kept" in the payload. -/
theorem c10_update_page_empty_title_witness :
    (updatePagePayload ⟨"9", some (pyStrip "   "), none, 2, .markdown⟩
        (Json.obj [("title", Json.str "Kept")])).getD "title" .null
      = (Json.obj [("title", Json.str "Kept")]).getD "title" .null
    ∧ updatePagePayload ⟨"9", some (pyStrip "   "), none, 2, .markdown⟩
        (Json.obj [("title", Json.str "Kept")])
      = updatePagePayload
          { (⟨"9", some (pyStrip "   "), none, 2, .markdown⟩ : UpdatePageInput)
              with title := none }
          (Json.obj [("title", Json.str "Kept")]) :=
  c10_update_page_empty_title ⟨"9", some (pyStrip "   "), none, 2, .markdown⟩
    "   " _ (by decide) rfl

/-- Claim C3 counterexample: a 404 response does not raise a distinct
`NotFoundError` class; it raises `ValueError`, the very same exception
class that a 401 raises, distinguished only by its message. -/
theorem c3_counterexample :
    make_request_handle ⟨404, "", none⟩
      = .error ⟨"ValueError", "Resource not found. Check the ID or key provided."⟩
    ∧ "ValueError" ≠ "NotFoundError"
    ∧ make_request_handle ⟨401, "", none⟩
      = .error ⟨"ValueError",
          "Authentication failed. Check your CONFLUENCE_EMAIL and CONFLUENCE_API_TOKEN."⟩ :=
  ⟨rfl, by decide, rfl⟩

/-- Claim C3 (amended): the executor maps 401, 403 and 404 each to a
raised `ValueError` with a fixed descriptive message (404's message says
the resource/id could not be located), any other status >= 400 to a
`ValueError` carrying the status code and at most 500 characters of the
response body ("No details" when the body is empty), and any non-error
response to its parsed JSON body, or an empty dict when the body is
empty.  No retry is attempted: `makeRequest` is a single `call` node, so
the executor contributes exactly one request to any trace. -/
theorem c3_error_mapping_amended (r : HttpResponse) :
    (r.status = 401 → make_request_handle r = .error ⟨"ValueError",
      "Authentication failed. Check your CONFLUENCE_EMAIL and CONFLUENCE_API_TOKEN."⟩)
    ∧ (r.status = 403 → make_request_handle r = .error ⟨"ValueError",
      "Permission denied. Your account may not have access to this resource."⟩)
    ∧ (r.status = 404 → make_request_handle r = .error ⟨"ValueError",
      "Resource not found. Check the ID or key provided."⟩)
    ∧ (r.status ≥ 400 → r.status ≠ 401 → r.status ≠ 403 → r.status ≠ 404 →
      make_request_handle r = .error ⟨"ValueError",
        "API error " ++ toString r.status ++ ": " ++
          (if r.text.isEmpty then "No details" else r.text.take 500)⟩
      ∧ (r.text.take 500).length ≤ 500)
    ∧ (r.status < 400 → r.text = "" → make_request_handle r = .ok (.obj []))
    ∧ (r.status < 400 → r.text ≠ "" → ∀ j, r.jsonBody = some j →
      make_request_handle r = .ok j)
    ∧ (∀ m u ps b, ∃ req, makeRequest m u ps b
        = .call req (fun resp => .pure (make_request_handle resp))) := by
  have h0 : "".isEmpty = true := rfl
  refine ⟨fun h => ?_, fun h => ?_, fun h => ?_,
    fun h h1 h2 h3 => ⟨?_, take_length_le r.text 500⟩,
    fun h h' => ?_, fun h h' j hj => ?_, fun m u ps b => ⟨_, rfl⟩⟩
  · simp [make_request_handle, h]
  · simp [make_request_handle, h]
  · simp [make_request_handle, h]
  · simp only [make_request_handle]
    rw [if_neg h1, if_neg h2, if_neg h3, if_pos h]
  · have h1 : r.status ≠ 401 := by omega
    have h2 : r.status ≠ 403 := by omega
    have h3 : r.status ≠ 404 := by omega
    have h4 : ¬ (r.status ≥ 400) := by omega
    simp [make_request_handle, h1, h2, h3, h4, h', h0]
  · have h1 : r.status ≠ 401 := by omega
    have h2 : r.status ≠ 403 := by omega
    have h3 : r.status ≠ 404 := by omega
    have h4 : ¬ (r.status ≥ 400) := by omega
    simp [make_request_handle, h1, h2, h3, h4, isEmpty_false_of_ne h', hj]

/-- Claim C3 witness: the amended mapping applied to a 500 response with
body "boom", a 200 response with an empty body, and a 200 response with a
JSON body. -/
theorem c3_error_mapping_amended_witness :
    (make_request_handle ⟨500, "boom", none⟩ = .error ⟨"ValueError",
        "API error 500: " ++ (if ("boom" : String).isEmpty then "No details"
          else ("boom" : String).take 500)⟩
      ∧ (("boom" : String).take 500).length ≤ 500)
    ∧ make_request_handle ⟨200, "", none⟩ = .ok (.obj [])
    ∧ make_request_handle ⟨200, "[]", some (.arr [])⟩ = .ok (.arr []) :=
  ⟨(c3_error_mapping_amended ⟨500, "boom", none⟩).2.2.2.1 (by decide)
      (by decide) (by decide) (by decide),
   (c3_error_mapping_amended ⟨200, "", none⟩).2.2.2.2.1 (by decide) rfl,
   (c3_error_mapping_amended ⟨200, "[]", some (.arr [])⟩).2.2.2.2.2.1
      (by decide) (by decide) (.arr []) rfl⟩

/-- Claim C4: `get_space_by_key` whose key matches zero spaces (the
remote result list is empty) returns a descriptive not-found text rather
than raising, and the whole invocation issues exactly one network call:
a GET on the spaces collection with query parameters `keys=<space_key>`
and `limit=1`. -/
theorem c4_get_space_by_key_not_found (p : GetSpaceByKeyInput)
    (oracle : Request → HttpResponse) (data : Json)
    (hresp : make_request_handle
        (oracle ⟨"GET", CONFLUENCE_API_V2 ++ "/spaces",
          [("keys", Json.str p.space_key), ("limit", Json.num 1)], none⟩)
      = .ok data)
    (hempty : data.getD "results" (.arr []) = .arr []) :
    Net.run oracle (confluence_get_space_by_key p)
      = (.ok ("Space with key \x27" ++ p.space_key ++ "\x27 not found."),
         [⟨"GET", CONFLUENCE_API_V2 ++ "/spaces",
           [("keys", Json.str p.space_key), ("limit", Json.num 1)], none⟩]) := by
  simp [confluence_get_space_by_key, makeRequest, onOk, Net.run, hresp, hempty,
    pyTruthy]

/-- Claim C4 witness: a remote with no space of key "NOPE" yields the
not-found text from a single GET. -/
theorem c4_get_space_by_key_not_found_witness :
    Net.run (fun _ => ⟨200, "j", some (Json.obj [("results", Json.arr [])])⟩)
      (confluence_get_space_by_key ⟨"NOPE", .markdown⟩)
      = (.ok ("Space with key \x27NOPE\x27 not found."),
         [⟨"GET", CONFLUENCE_API_V2 ++ "/spaces",
           [("keys", Json.str "NOPE"), ("limit", Json.num 1)], none⟩]) :=
  c4_get_space_by_key_not_found ⟨"NOPE", .markdown⟩ _ _ rfl rfl

/-- Claim C5 counterexample: the empty-result message of
`get_pages_in_space` is not a fixed text independent of the input
parameters — it embeds the space id, so two invocations differing only in
the space id return different texts. -/
theorem c5_counterexample :
    (Net.run (fun _ => ⟨200, "j", some (Json.obj [("results", Json.arr [])])⟩)
      (confluence_get_pages_in_space ⟨"A", 25, none, some "all", .markdown⟩)).1
      = .ok "No pages found in space A."
    ∧ (Net.run (fun _ => ⟨200, "j", some (Json.obj [("results", Json.arr [])])⟩)
      (confluence_get_pages_in_space ⟨"B", 25, none, some "all", .markdown⟩)).1
      = .ok "No pages found in space B."
    ∧ ("No pages found in space A." : String) ≠ "No pages found in space B." :=
  ⟨rfl, rfl, by decide⟩

/-- Claim C5 (amended): every list operation whose remote result set is
empty returns a descriptive no-results message in markdown mode and never
raises; the text is fixed for `list_spaces` ("No spaces found.") and
`list_pages` ("No pages found."), while `get_pages_in_space` embeds the
space id and `search` embeds the query in their messages. -/
theorem c5_empty_results_amended (oracle : Request → HttpResponse) :
    (∀ (p : ListSpacesInput) (data : Json),
      p.response_format = .markdown →
      make_request_handle (oracle ⟨"GET", CONFLUENCE_API_V2 ++ "/spaces",
        listSpacesQueryParams p, none⟩) = .ok data →
      data.getD "results" (.arr []) = .arr [] →
      (Net.run oracle (confluence_list_spaces p)).1 = .ok "No spaces found.")
    ∧ (∀ (p : ListPagesInput) (data : Json),
      p.response_format = .markdown →
      make_request_handle (oracle ⟨"GET", listPagesUrl p,
        listPagesQueryParams p, none⟩) = .ok data →
      data.getD "results" (.arr []) = .arr [] →
      (Net.run oracle (confluence_list_pages p)).1 = .ok "No pages found.")
    ∧ (∀ (p : GetPagesInSpaceInput) (data : Json),
      p.response_format = .markdown →
      make_request_handle (oracle ⟨"GET",
        CONFLUENCE_API_V2 ++ "/spaces/" ++ p.space_id ++ "/pages",
        getPagesInSpaceQueryParams p, none⟩) = .ok data →
      data.getD "results" (.arr []) = .arr [] →
      (Net.run oracle (confluence_get_pages_in_space p)).1
        = .ok ("No pages found in space " ++ p.space_id ++ "."))
    ∧ (∀ (p : SearchContentInput) (data : Json),
      p.response_format = .markdown →
      make_request_handle (oracle ⟨"GET", CONFLUENCE_API_V1 ++ "/content/search",
        [("cql", Json.str p.query), ("limit", Json.num p.limit)], none⟩) = .ok data →
      data.getD "results" (.arr []) = .arr [] →
      (Net.run oracle (confluence_search p)).1
        = .ok ("No results found for query: " ++ p.query)) := by
  refine ⟨fun p data hf hr he => ?_, fun p data hf hr he => ?_,
    fun p data hf hr he => ?_, fun p data hf hr he => ?_⟩ <;>
  simp [confluence_list_spaces, confluence_list_pages,
    confluence_get_pages_in_space, confluence_search,
    makeRequest, onOk, Net.run, hf, hr, he, pyTruthy]

/-- Claim C5 witness: a remote with zero spaces makes `list_spaces`
return the fixed no-results text. -/
theorem c5_empty_results_amended_witness :
    (Net.run (fun _ => ⟨200, "j", some (Json.obj [("results", Json.arr [])])⟩)
      (confluence_list_spaces ⟨25, none, none, .markdown⟩)).1
      = .ok "No spaces found." :=
  (c5_empty_results_amended
      (fun _ => ⟨200, "j", some (Json.obj [("results", Json.arr [])])⟩)).1
    ⟨25, none, none, .markdown⟩ _ rfl rfl rfl

/-- Claim C2 counterexample: `get_space_by_key` with `response_format=json`
does not return the indented JSON serialization of the raw remote payload;
it serializes only the first matched space sub-record, which differs from
the serialization of the full response. -/
theorem c2_counterexample :
    (Net.run (fun _ => ⟨200, "j",
        some (Json.obj [("results", Json.arr [Json.obj [("name", Json.str "Team Space"),
          ("key", Json.str "TEAM")]])])⟩)
      (confluence_get_space_by_key ⟨"TEAM", .json⟩)).1
      = .ok (dumps (Json.obj [("name", Json.str "Team Space"),
          ("key", Json.str "TEAM")]))
    ∧ dumps (Json.obj [("name", Json.str "Team Space"), ("key", Json.str "TEAM")])
      ≠ dumps (Json.obj [("results", Json.arr [Json.obj [("name", Json.str "Team Space"),
          ("key", Json.str "TEAM")]])]) :=
  ⟨rfl, by decide⟩

/-- Claim C2 (amended): with `response_format=json`, `list_spaces`,
`list_pages`, `get_pages_in_space`, `search`, `get_page`, `create_page`
and `update_page` each return exactly the indented JSON serialization of
the raw remote payload; `get_space_by_key`, however, serializes only the
first matched space sub-record (in json mode: its indented serialization),
and returns a plain not-found text when the result list is empty. -/
theorem c2_json_serialization_amended (oracle : Request → HttpResponse) :
    (∀ (p : ListSpacesInput) (data : Json),
      p.response_format = .json →
      make_request_handle (oracle ⟨"GET", CONFLUENCE_API_V2 ++ "/spaces",
        listSpacesQueryParams p, none⟩) = .ok data →
      (Net.run oracle (confluence_list_spaces p)).1 = .ok (dumps data))
    ∧ (∀ (p : ListPagesInput) (data : Json),
      p.response_format = .json →
      make_request_handle (oracle ⟨"GET", listPagesUrl p,
        listPagesQueryParams p, none⟩) = .ok data →
      (Net.run oracle (confluence_list_pages p)).1 = .ok (dumps data))
    ∧ (∀ (p : GetPagesInSpaceInput) (data : Json),
      p.response_format = .json →
      make_request_handle (oracle ⟨"GET",
        CONFLUENCE_API_V2 ++ "/spaces/" ++ p.space_id ++ "/pages",
        getPagesInSpaceQueryParams p, none⟩) = .ok data →
      (Net.run oracle (confluence_get_pages_in_space p)).1 = .ok (dumps data))
    ∧ (∀ (p : SearchContentInput) (data : Json),
      p.response_format = .json →
      make_request_handle (oracle ⟨"GET", CONFLUENCE_API_V1 ++ "/content/search",
        [("cql", Json.str p.query), ("limit", Json.num p.limit)], none⟩) = .ok data →
      (Net.run oracle (confluence_search p)).1 = .ok (dumps data))
    ∧ (∀ (p : GetPageInput) (data : Json),
      p.response_format = .json →
      make_request_handle (oracle ⟨"GET", CONFLUENCE_API_V2 ++ "/pages/" ++ p.page_id,
        getPageQueryParams p, none⟩) = .ok data →
      (Net.run oracle (confluence_get_page p)).1 = .ok (dumps data))
    ∧ (∀ (p : CreatePageInput) (data : Json),
      p.response_format = .json →
      make_request_handle (oracle ⟨"POST", CONFLUENCE_API_V2 ++ "/pages", [],
        some (createPagePayload p)⟩) = .ok data →
      (Net.run oracle (confluence_create_page p)).1 = .ok (dumps data))
    ∧ (∀ (p : UpdatePageInput) (current data : Json),
      p.response_format = .json →
      make_request_handle (oracle ⟨"GET", CONFLUENCE_API_V2 ++ "/pages/" ++ p.page_id,
        [], none⟩) = .ok current →
      make_request_handle (oracle ⟨"PUT", CONFLUENCE_API_V2 ++ "/pages/" ++ p.page_id,
        [], some (updatePagePayload p current)⟩) = .ok data →
      (Net.run oracle (confluence_update_page p)).1 = .ok (dumps data))
    ∧ (∀ (p : GetSpaceByKeyInput) (data s : Json) (rest : List Json),
      make_request_handle (oracle ⟨"GET", CONFLUENCE_API_V2 ++ "/spaces",
        [("keys", Json.str p.space_key), ("limit", Json.num 1)], none⟩) = .ok data →
      data.getD "results" (.arr []) = .arr (s :: rest) →
      (Net.run oracle (confluence_get_space_by_key p)).1
        = .ok (format_space s p.response_format))
    ∧ (∀ (p : GetSpaceByKeyInput) (data : Json),
      make_request_handle (oracle ⟨"GET", CONFLUENCE_API_V2 ++ "/spaces",
        [("keys", Json.str p.space_key), ("limit", Json.num 1)], none⟩) = .ok data →
      data.getD "results" (.arr []) = .arr [] →
      (Net.run oracle (confluence_get_space_by_key p)).1
        = .ok ("Space with key \x27" ++ p.space_key ++ "\x27 not found.")) := by
  refine ⟨fun p data hf hr => ?_, fun p data hf hr => ?_, fun p data hf hr => ?_,
    fun p data hf hr => ?_, fun p data hf hr => ?_, fun p data hf hr => ?_,
    fun p current data hf hg hp => ?_, fun p data s rest hr he => ?_,
    fun p data hr he => ?_⟩ <;>
  simp [confluence_list_spaces, confluence_list_pages,
    confluence_get_pages_in_space, confluence_search, confluence_get_page,
    confluence_create_page, confluence_update_page, confluence_get_space_by_key,
    makeRequest, onOk, Net.run, format_page, pyTruthy, *]

/-- Claim C2 witness: a concrete remote payload dumped verbatim by
`list_spaces`, and the same payload reduced to its first sub-record by
`get_space_by_key`. -/
theorem c2_json_serialization_amended_witness :
    (Net.run (fun _ => ⟨200, "j",
        some (Json.obj [("results", Json.arr [Json.obj [("key", Json.str "T")]])])⟩)
      (confluence_list_spaces ⟨25, none, none, .json⟩)).1
      = .ok (dumps (Json.obj [("results",
          Json.arr [Json.obj [("key", Json.str "T")]])]))
    ∧ (Net.run (fun _ => ⟨200, "j",
        some (Json.obj [("results", Json.arr [Json.obj [("key", Json.str "T")]])])⟩)
      (confluence_get_space_by_key ⟨"T", .json⟩)).1
      = .ok (format_space (Json.obj [("key", Json.str "T")]) .json) :=
  ⟨(c2_json_serialization_amended _).1 ⟨25, none, none, .json⟩ _ rfl rfl,
   (c2_json_serialization_amended _).2.2.2.2.2.2.2.1 ⟨"T", .json⟩ _ _ [] rfl rfl⟩

set_option maxRecDepth 4096 in
/-- Claim C7 counterexample: `get_pages_in_space` in markdown with a
non-empty result set and a pagination link present (`_links.next` truthy)
does not end with — indeed nowhere contains — a "More results available"
notice. -/
theorem c7_counterexample :
    (Net.run (fun _ => ⟨200, "j",
        some (Json.obj [("results", Json.arr [Json.obj [("title", Json.str "Home"),
            ("id", Json.str "1"), ("status", Json.str "current")]]),
          ("_links", Json.obj [("next", Json.str "/wiki/api/v2/spaces/9/pages?cursor=abc")])])⟩)
      (confluence_get_pages_in_space ⟨"9", 25, none, some "all", .markdown⟩)).1
      = .ok (pagesInSpaceMd [Json.obj [("title", Json.str "Home"),
            ("id", Json.str "1"), ("status", Json.str "current")]])
    ∧ pyTruthy ((Json.obj [("next",
        Json.str "/wiki/api/v2/spaces/9/pages?cursor=abc")]).getD "next" .null) = true
    ∧ ¬ ("More results available".data <:+:
        (pagesInSpaceMd [Json.obj [("title", Json.str "Home"),
            ("id", Json.str "1"), ("status", Json.str "current")]]).data) :=
  ⟨rfl, rfl, by decide⟩

/-- Claim C7 (amended): in markdown with a non-empty result set,
`list_spaces` and `list_pages` produce a count header followed by the
entries, and append their "More results available" notice exactly when
the remote `_links.next` value is truthy — the output depends on the link
only through that truthiness, so the link is never decoded;
`get_pages_in_space` produces its count header but never appends any
notice: its output is a function of the result list alone, whatever
`_links` holds. -/
theorem c7_list_format_amended (oracle : Request → HttpResponse) :
    (∀ (p : ListSpacesInput) (data x : Json) (xs : List Json),
      p.response_format = .markdown →
      make_request_handle (oracle ⟨"GET", CONFLUENCE_API_V2 ++ "/spaces",
        listSpacesQueryParams p, none⟩) = .ok data →
      data.getD "results" (.arr []) = .arr (x :: xs) →
      (Net.run oracle (confluence_list_spaces p)).1
        = .ok (listSpacesMdBase p (x :: xs) ++
            (if pyTruthy ((data.getD "_links" (.obj [])).getD "next" .null)
             then listSpacesNotice else ""))
      ∧ ∃ t, listSpacesMdBase p (x :: xs)
          = "# Confluence Spaces (" ++ toString (x :: xs).length
            ++ " results)\n\n" ++ t)
    ∧ (∀ (p : ListPagesInput) (data x : Json) (xs : List Json),
      p.response_format = .markdown →
      make_request_handle (oracle ⟨"GET", listPagesUrl p,
        listPagesQueryParams p, none⟩) = .ok data →
      data.getD "results" (.arr []) = .arr (x :: xs) →
      (Net.run oracle (confluence_list_pages p)).1
        = .ok (listPagesMdBase (x :: xs) ++
            (if pyTruthy ((data.getD "_links" (.obj [])).getD "next" .null)
             then listPagesNotice else ""))
      ∧ ∃ t, listPagesMdBase (x :: xs)
          = "# Confluence Pages (" ++ toString (x :: xs).length
            ++ " results)\n\n" ++ t)
    ∧ (∀ (p : GetPagesInSpaceInput) (data x : Json) (xs : List Json),
      p.response_format = .markdown →
      make_request_handle (oracle ⟨"GET",
        CONFLUENCE_API_V2 ++ "/spaces/" ++ p.space_id ++ "/pages",
        getPagesInSpaceQueryParams p, none⟩) = .ok data →
      data.getD "results" (.arr []) = .arr (x :: xs) →
      (Net.run oracle (confluence_get_pages_in_space p)).1
        = .ok (pagesInSpaceMd (x :: xs))
      ∧ ∃ t, pagesInSpaceMd (x :: xs)
          = "# Pages in Space (" ++ toString (x :: xs).length
            ++ " results)\n\n" ++ t) := by
  have harr : ∀ (x : Json) (xs : List Json),
      pyTruthy (Json.arr (x :: xs)) = true := fun _ _ => rfl
  refine ⟨fun p data x xs hf hr he => ⟨?_, _, rfl⟩,
    fun p data x xs hf hr he => ⟨?_, _, rfl⟩,
    fun p data x xs hf hr he => ⟨?_, _, rfl⟩⟩ <;>
  cases hn : pyTruthy ((data.getD "_links" (.obj [])).getD "next" .null) <;>
  simp [confluence_list_spaces, confluence_list_pages,
    confluence_get_pages_in_space, makeRequest, onOk, Net.run,
    harr, hf, hr, he, hn, String.append_empty]

/-- Claim C7 witness: one space in the results and a pagination link
present makes `list_spaces` append its notice after the count header. -/
theorem c7_list_format_amended_witness :
    (Net.run (fun _ => ⟨200, "j",
        some (Json.obj [("results", Json.arr [Json.obj [("key", Json.str "T")]]),
          ("_links", Json.obj [("next", Json.str "/next")])])⟩)
      (confluence_list_spaces ⟨25, none, none, .markdown⟩)).1
      = .ok (listSpacesMdBase ⟨25, none, none, .markdown⟩
            [Json.obj [("key", Json.str "T")]] ++
          (if pyTruthy (((Json.obj [("results",
              Json.arr [Json.obj [("key", Json.str "T")]]),
            ("_links", Json.obj [("next", Json.str "/next")])]).getD
              "_links" (.obj [])).getD "next" .null)
           then listSpacesNotice else ""))
    ∧ ∃ t, listSpacesMdBase ⟨25, none, none, .markdown⟩
          [Json.obj [("key", Json.str "T")]]
        = "# Confluence Spaces (" ++ toString
            ([Json.obj [("key", Json.str "T")]] : List Json).length
          ++ " results)\n\n" ++ t :=
  (c7_list_format_amended _).1 ⟨25, none, none, .markdown⟩ _ _ [] rfl rfl rfl

/-- The markdown branch of `format_page`, written out over the `body` and
`storage` locals. -/
theorem format_page_markdown_eq (page : Json) :
    format_page page .markdown
      = if pyTruthy (pageBody page) then
          (if pyTruthy (pageStorage page) &&
              pyTruthy ((pageStorage page).getD "value" .null)
           then formatPageHeaderMd page ++ "\n\n### Content\n"
              ++ sliceValue ((pageStorage page).getD "value" (.str ""))
           else formatPageHeaderMd page)
        else formatPageHeaderMd page := rfl

/-- Claim C9: a markdown-formatted page record carries a "Content"
section, truncated to 2000 characters, exactly when its body holds a
`storage` entry with a non-empty `value`: with such a value the output is
the header plus the truncated content; with a missing or empty value, or
with no `storage` key in the body at all (as for a page fetched with
body_format `view` or `atlas_doc_format`), the output is the header
alone. -/
theorem c9_format_page_content (page : Json) (bkvs skvs : List (String × Json))
    (hbk : pageBody page = .obj bkvs)
    (hsk : pageStorage page = .obj skvs) :
    (∀ s, lookupKey "value" skvs = some (.str s) → s ≠ "" →
      format_page page .markdown
        = formatPageHeaderMd page ++ "\n\n### Content\n" ++ s.take 2000)
    ∧ (lookupKey "value" skvs = none ∨ lookupKey "value" skvs = some (.str "") →
      format_page page .markdown = formatPageHeaderMd page)
    ∧ (lookupKey "storage" bkvs = none →
      format_page page .markdown = formatPageHeaderMd page) := by
  have hstor : (lookupKey "storage" bkvs).getD (.obj []) = .obj skvs := by
    have h := hsk
    rw [pageStorage, hbk, Json.getD] at h
    exact h
  have h2 : lookupKey "value" skvs = none ∨ lookupKey "value" skvs = some (.str "") →
      format_page page .markdown = formatPageHeaderMd page := by
    intro h
    rw [format_page_markdown_eq, hbk, hsk]
    have h0 : "".isEmpty = true := rfl
    have hval : pyTruthy ((Json.obj skvs).getD "value" .null) = false := by
      rcases h with h | h <;> simp [Json.getD, h, pyTruthy, h0]
    rw [hval]
    simp
  refine ⟨?_, h2, ?_⟩
  · intro s hv hne
    have hskne : skvs ≠ [] := by
      intro h
      subst h
      simp [lookupKey] at hv
    have hsb : lookupKey "storage" bkvs = some (.obj skvs) := by
      cases hl : lookupKey "storage" bkvs with
      | none =>
        rw [hl] at hstor
        simp at hstor
        exact absurd hstor hskne
      | some w =>
        rw [hl] at hstor
        simp at hstor
        rw [hstor]
    have hbkne : bkvs ≠ [] := by
      intro h
      subst h
      simp [lookupKey] at hsb
    have hbe : bkvs.isEmpty = false := by
      cases bkvs with
      | nil => exact absurd rfl hbkne
      | cons a l => rfl
    have hse : skvs.isEmpty = false := by
      cases skvs with
      | nil => exact absurd rfl hskne
      | cons a l => rfl
    rw [format_page_markdown_eq, hbk, hsk]
    simp [pyTruthy, hbe, hse, Json.getD, hv, isEmpty_false_of_ne hne, sliceValue]
  · intro hnone
    have hsknil : skvs = [] := by
      rw [hnone] at hstor
      simp at hstor
      exact hstor
    subst hsknil
    exact h2 (Or.inl rfl)

/-- Claim C9 witness: a page whose body carries a storage value "hello"
gets a Content section holding that value truncated to 2000
characters. -/
theorem c9_format_page_content_witness :
    format_page (Json.obj [("title", Json.str "T"),
        ("body", Json.obj [("storage", Json.obj [("value", Json.str "hello")])])])
      .markdown
      = formatPageHeaderMd (Json.obj [("title", Json.str "T"),
          ("body", Json.obj [("storage", Json.obj [("value", Json.str "hello")])])])
        ++ "\n\n### Content\n" ++ ("hello" : String).take 2000 :=
  (c9_format_page_content
      (Json.obj [("title", Json.str "T"),
        ("body", Json.obj [("storage", Json.obj [("value", Json.str "hello")])])])
      [("storage", Json.obj [("value", Json.str "hello")])]
      [("value", Json.str "hello")] rfl rfl).1 "hello" rfl (by decide)
